import Mathlib

/-!
# Shallow embedding of the clockout-vision attendance core

This file embeds the presence-debounce / session-ledger engine of the
repository in Lean 4:

* `src/brain/core/redis_client.py` — the onsite counter
  (`get_onsite_count`, `increment_onsite`, `decrement_onsite`,
  `set_onsite_count`);
* `src/brain/models/attendance.py` — `AttendanceSession`
  (with `calculate_duration`) and `AttendanceDailySummary`;
* `src/brain/modules/attendance/service.py` — `AttendanceModule`
  (`process_event`, `_handle_zone_entry`, `_handle_zone_exit`,
  `_track_zone_presence`, `_get_zone_duration`, `_clear_zone_tracking`,
  `_was_counted`, `_mark_counted`, `_is_in_cooldown`, `_set_cooldown`,
  `_record_entry`, `_record_exit`, `_update_daily_summary`,
  `get_active_sessions`).

Modelling conventions:

* Timestamps are rationals (`ℚ`), in seconds (Python `datetime.timestamp()`
  values).
* All ephemeral Redis keys used by the module are namespaced by the
  detection id, and the claims under study concern a single detection id,
  so the state carries the per-id keys directly: the presence record
  (value = entry timestamp, paired with its expiry instant), the
  entry/exit debounce markers and the cooldown marker (expiry instants).
  Redis `EXISTS`/`GET` on a key whose expiry has passed behaves as if the
  key is absent, so liveness of a key at time `t` is `t < expiry`.
* The wall clock used by `setex` (TTL start) and by the processing code
  coincides with the event's timestamp: events are processed on arrival
  and the claims are phrased in event time.
* The Redis integer behind `attendance:onsite_count` is modelled as `ℤ`
  (an absent key reads as 0, which is indistinguishable from a stored 0
  through the accessors used here).
* Python `int(x)` truncation toward zero on the duration quotient is
  `pyTrunc`; the spec's `round` is modelled separately as
  `spec_duration_minutes` for comparison.
* Single-day setting: `date.today()` is constant over the traces the
  claims quantify over, so the state holds the single `Option` summary
  row for the current day.
-/

namespace ClockoutVision

/-- Python `int()` applied to a rational: truncation toward zero
(`models/attendance.py`, `calculate_duration`:
`int(delta.total_seconds() / 60)`). -/
def pyTrunc (q : ℚ) : ℤ := if 0 ≤ q then ⌊q⌋ else ⌈q⌉

/-- Session status enum (`models/attendance.py`, `SessionStatus`). -/
inductive SessionStatus where
  | active
  | completed
  | abandoned
deriving Repr, DecidableEq

/-- A row of `attendance_sessions` (`models/attendance.py`,
`AttendanceSession`). Times are epoch seconds as `ℚ`. -/
structure AttendanceSession where
  id : ℕ
  entry_time : ℚ
  entry_camera : String
  exit_time : Option ℚ := none
  exit_camera : Option String := none
  duration_minutes : Option ℤ := none
  status : SessionStatus
deriving Repr, DecidableEq

/-- `AttendanceSession.calculate_duration`: sets `duration_minutes` to
`int(delta.total_seconds() / 60)` when both times are present
(`entry_time` is non-nullable, so only `exit_time` is matched). -/
def calculate_duration (s : AttendanceSession) : AttendanceSession :=
  match s.exit_time with
  | some te => { s with duration_minutes := some (pyTrunc ((te - s.entry_time) / 60)) }
  | none => s

/-- A row of `attendance_daily_summary` (`models/attendance.py`,
`AttendanceDailySummary`). `peak_onsite` is nullable in the schema, hence
`Option ℤ` (the service code contains an explicit `None` fix-up). -/
structure DailySummary where
  total_entries : ℤ
  total_exits : ℤ
  current_onsite : ℤ
  total_person_minutes : ℤ
  peak_onsite : Option ℤ
  peak_time : Option ℚ
deriving Repr, DecidableEq

/-- The state visible to the attendance module for one detection id:
the per-id ephemeral Redis keys, the shared onsite counter, the session
table and the current day's summary row. -/
structure BrainState where
  /-- `attendance:zone_entry:{camera}:{detection_id}` — stored entry
  timestamp together with the key's expiry instant. -/
  presence : Option (ℚ × ℚ)
  /-- `attendance:counted:entry:{detection_id}` — expiry instant. -/
  entry_marker : Option ℚ
  /-- `attendance:counted:exit:{detection_id}` — expiry instant. -/
  exit_marker : Option ℚ
  /-- `attendance:cooldown:detection_{detection_id}` — expiry instant. -/
  cooldown : Option ℚ
  /-- Integer behind `attendance:onsite_count`. -/
  onsite_raw : ℤ
  /-- Rows of `attendance_sessions`, in insertion order. -/
  sessions : List AttendanceSession
  /-- Next autoincrement id for `attendance_sessions`. -/
  next_id : ℕ
  /-- Today's row of `attendance_daily_summary`, if it exists. -/
  summary : Option DailySummary
deriving Repr, DecidableEq

/-- Liveness of a TTL key at time `t`: present and not yet expired. -/
def liveAt (e : Option ℚ) (t : ℚ) : Bool :=
  match e with
  | some exp => decide (t < exp)
  | none => false

/-! ## Configuration constants (`AttendanceModule.__init__`) -/

def gate_zone : String := "gate_entrance"
def gate_camera : String := "test_camera"
def min_zone_duration : ℚ := 1
def cooldown_seconds : ℚ := 15
/-- TTL of the `attendance:counted:*` markers (`_mark_counted`: 60 s). -/
def marker_ttl : ℚ := 60
/-- TTL of the zone-presence key (`_track_zone_presence`: 30 s). -/
def presence_ttl : ℚ := 30

/-! ## Onsite counter (`core/redis_client.py`) -/

/-- `RedisClient.get_onsite_count`. -/
def get_onsite_count (s : BrainState) : ℤ := s.onsite_raw

/-- `RedisClient.increment_onsite` (`INCR`): returns the new value. -/
def increment_onsite (s : BrainState) : ℤ × BrainState :=
  (s.onsite_raw + 1, { s with onsite_raw := s.onsite_raw + 1 })

/-- `RedisClient.decrement_onsite`: `DECR`, then if the result is
negative, store 0 and return 0. -/
def decrement_onsite (s : BrainState) : ℤ × BrainState :=
  let c := s.onsite_raw - 1
  if c < 0 then (0, { s with onsite_raw := 0 }) else (c, { s with onsite_raw := c })

/-- `RedisClient.set_onsite_count`: stores `max(0, count)`. -/
def set_onsite_count (s : BrainState) (n : ℤ) : BrainState :=
  { s with onsite_raw := max 0 n }

/-! ## Ephemeral debounce state (`modules/attendance/service.py`) -/

/-- `_track_zone_presence`: store the event timestamp under the presence
key with a 30 s TTL, only if the key does not (still) exist. -/
def track_zone_presence (s : BrainState) (t : ℚ) : BrainState :=
  if liveAt (s.presence.map Prod.snd) t then s
  else { s with presence := some (t, t + presence_ttl) }

/-- `_get_zone_duration`: current timestamp minus the stored entry
timestamp, or 0.0 if the key is absent/expired. -/
def get_zone_duration (s : BrainState) (t : ℚ) : ℚ :=
  match s.presence with
  | some (ts, exp) => if t < exp then t - ts else 0
  | none => 0

/-- `_clear_zone_tracking`: delete the presence key. -/
def clear_zone_tracking (s : BrainState) : BrainState :=
  { s with presence := none }

/-- `_was_counted(event, 'entry')`. -/
def was_counted_entry (s : BrainState) (t : ℚ) : Bool := liveAt s.entry_marker t

/-- `_was_counted(event, 'exit')`. -/
def was_counted_exit (s : BrainState) (t : ℚ) : Bool := liveAt s.exit_marker t

/-- `_mark_counted(event, 'entry')`: 60 s TTL. -/
def mark_counted_entry (s : BrainState) (t : ℚ) : BrainState :=
  { s with entry_marker := some (t + marker_ttl) }

/-- `_mark_counted(event, 'exit')`: 60 s TTL. -/
def mark_counted_exit (s : BrainState) (t : ℚ) : BrainState :=
  { s with exit_marker := some (t + marker_ttl) }

/-- `_is_in_cooldown`. -/
def is_in_cooldown (s : BrainState) (t : ℚ) : Bool := liveAt s.cooldown t

/-- `_set_cooldown`: `cooldown_seconds` TTL. -/
def set_cooldown (s : BrainState) (t : ℚ) : BrainState :=
  { s with cooldown := some (t + cooldown_seconds) }

/-! ## Daily aggregator (`_update_daily_summary`) -/

/-- The summary row created when none exists for today
(`AttendanceDailySummary(...)` constructor call in
`_update_daily_summary`; `total_person_minutes` and `peak_time` take the
column defaults 0 and NULL). -/
def freshSummary : DailySummary :=
  { total_entries := 0, total_exits := 0, current_onsite := 0,
    total_person_minutes := 0, peak_onsite := some 0, peak_time := none }

/-- Locate-or-create step of `_update_daily_summary`. -/
def getOrCreateSummary (o : Option DailySummary) : DailySummary :=
  match o with
  | some sm => sm
  | none => freshSummary

/-- `_update_daily_summary(action)`; `isEntry = true` for `'entry'`,
`false` for `'exit'`; `now` is the wall clock used for `peak_time`. -/
def update_daily_summary (s : BrainState) (isEntry : Bool) (now : ℚ) : BrainState :=
  let sm := getOrCreateSummary s.summary
  let sm := if isEntry then { sm with total_entries := sm.total_entries + 1 }
            else { sm with total_exits := sm.total_exits + 1 }
  let sm := { sm with current_onsite := get_onsite_count s }
  let p : ℤ := match sm.peak_onsite with
    | none => 0
    | some p => p
  let sm := { sm with peak_onsite := some p }
  let sm := if p < sm.current_onsite then
              { sm with peak_onsite := some sm.current_onsite, peak_time := some now }
            else sm
  { s with summary := some sm }

/-! ## Session ledger (`_record_entry`, `_record_exit`) -/

/-- `_record_entry`: insert a new active session, increment the onsite
counter, update the daily summary. -/
def record_entry (s : BrainState) (t : ℚ) (cam : String) : BrainState :=
  let sess : AttendanceSession :=
    { id := s.next_id, entry_time := t, entry_camera := cam, status := SessionStatus.active }
  let s := { s with sessions := s.sessions ++ [sess], next_id := s.next_id + 1 }
  let s := (increment_onsite s).2
  update_daily_summary s true t

/-- The `ORDER BY entry_time DESC ... first()` selection over the
`status = active` filter in `_record_exit`: the first listed session
holding the maximal entry time among active sessions. -/
def argmaxEntry : List AttendanceSession → Option AttendanceSession
  | [] => none
  | x :: xs =>
    match argmaxEntry xs with
    | none => some x
    | some b => if x.entry_time < b.entry_time then some b else some x

/-- Active-session selection of `_record_exit`. -/
def most_recent_active (l : List AttendanceSession) : Option AttendanceSession :=
  argmaxEntry (l.filter fun x => decide (x.status = SessionStatus.active))

/-- The mutation `_record_exit` applies to the selected session: set exit
fields, mark completed, compute the duration. -/
def close_session (x : AttendanceSession) (t : ℚ) (cam : String) : AttendanceSession :=
  calculate_duration
    { x with exit_time := some t, exit_camera := some cam, status := SessionStatus.completed }

/-- `_record_exit`: close the most recent active session if any, then
decrement the onsite counter and update the daily summary. -/
def record_exit (s : BrainState) (t : ℚ) (cam : String) : BrainState :=
  let s :=
    match most_recent_active s.sessions with
    | some sess =>
      { s with sessions := s.sessions.map fun x =>
          if x.id = sess.id then close_session x t cam else x }
    | none => s
  let s := (decrement_onsite s).2
  update_daily_summary s false t

/-! ## Debouncer (`_handle_zone_entry`, `_handle_zone_exit`,
`process_event`) -/

/-- `_handle_zone_entry`. -/
def handle_zone_entry (s : BrainState) (t : ℚ) (cam : String) : BrainState :=
  if is_in_cooldown s t then s
  else
    let s := track_zone_presence s t
    let d := get_zone_duration s t
    if min_zone_duration ≤ d then
      if was_counted_entry s t then s
      else set_cooldown (mark_counted_entry (record_entry s t cam) t) t
    else s

/-- `_handle_zone_exit`. -/
def handle_zone_exit (s : BrainState) (t : ℚ) (cam : String) : BrainState :=
  let d := get_zone_duration s t
  let s :=
    if min_zone_duration ≤ d then
      if was_counted_exit s t then s
      else mark_counted_exit (record_exit s t cam) t
    else s
  clear_zone_tracking s

/-- A normalized detection event as seen by `process_event` (the fields
it consults). -/
structure Event where
  object_type : String
  camera_id : String
  zones : List String
  timestamp : ℚ
deriving Repr, DecidableEq

/-- `AttendanceModule.process_event`. -/
def process_event (s : BrainState) (e : Event) : BrainState :=
  if e.object_type ≠ "person" then s
  else if e.camera_id ≠ gate_camera then s
  else if gate_zone ∈ e.zones then handle_zone_entry s e.timestamp e.camera_id
  else handle_zone_exit s e.timestamp e.camera_id

/-- Fold `process_event` over a list of events. -/
def run_events (s : BrainState) (es : List Event) : BrainState :=
  es.foldl process_event s

/-- Insert into a list sorted by descending entry time (stable). -/
def insertByEntryDesc (x : AttendanceSession) :
    List AttendanceSession → List AttendanceSession
  | [] => [x]
  | y :: ys =>
    if x.entry_time ≤ y.entry_time then y :: insertByEntryDesc x ys
    else x :: y :: ys

/-- Sort by descending entry time (insertion sort). -/
def sortByEntryDesc (l : List AttendanceSession) : List AttendanceSession :=
  l.foldr insertByEntryDesc []

/-- `get_active_sessions`: active sessions, most recent entry first. -/
def get_active_sessions (s : BrainState) : List AttendanceSession :=
  sortByEntryDesc (s.sessions.filter fun x => decide (x.status = SessionStatus.active))

/-- The state of a detection id never seen before, with empty durable
stores and counter 0. -/
def initState : BrainState :=
  { presence := none, entry_marker := none, exit_marker := none, cooldown := none,
    onsite_raw := 0, sessions := [], next_id := 1, summary := none }

/-- An in-zone person event at the gate camera at time `t`. -/
def inZoneEvent (t : ℚ) : Event :=
  { object_type := "person", camera_id := gate_camera, zones := [gate_zone], timestamp := t }

/-- An out-of-zone person event at the gate camera at time `t`. -/
def outZoneEvent (t : ℚ) : Event :=
  { object_type := "person", camera_id := gate_camera, zones := [], timestamp := t }

/-- Run a sequence of in-zone person events (one per timestamp) through
`process_event`. -/
def run_in_zone (s : BrainState) (ts : List ℚ) : BrainState :=
  run_events s (ts.map inZoneEvent)

/-- Phase description for the debounce analysis: the state reached from
`initState` after the first in-zone event at `t0`, before any entry has
been recorded. -/
def stateA (t0 : ℚ) : BrainState :=
  { initState with presence := some (t0, t0 + presence_ttl) }

/-- Phase description for the debounce analysis: the state reached from
`stateA t0` once the entry has been recorded at time `tstar`. -/
def stateB (t0 tstar : ℚ) : BrainState :=
  { presence := some (t0, t0 + presence_ttl),
    entry_marker := some (tstar + marker_ttl),
    exit_marker := none,
    cooldown := some (tstar + cooldown_seconds),
    onsite_raw := 1,
    sessions := [{ id := 1, entry_time := tstar, entry_camera := gate_camera,
                   status := SessionStatus.active }],
    next_id := 2,
    summary := some { total_entries := 1, total_exits := 0, current_onsite := 1,
                      total_person_minutes := 0, peak_onsite := some 1,
                      peak_time := some tstar } }

/-- The day's peak as the service compares it: 0 when no summary row
exists or the column is NULL. -/
def peakOf (o : Option DailySummary) : ℤ :=
  match o with
  | none => 0
  | some sm =>
    match sm.peak_onsite with
    | none => 0
    | some p => p

/-- The day's recorded peak time, `none` when no summary row exists. -/
def peakTimeOf (o : Option DailySummary) : Option ℚ :=
  match o with
  | none => none
  | some sm => sm.peak_time

/-- The spec's duration formula, stated from the spec's words for
comparison with the code's `calculate_duration`:
`durationMinutes = round((exitTime - entryTime)/60s)`. -/
def spec_duration_minutes (entryT exitT : ℚ) : ℤ := round ((exitT - entryT) / 60)

/-- A four-event single-id trace: in zone at t = 0 and t = 1.5 (entry
debounced at 1.5), still in zone at t = 70 (old presence key expired, a
fresh one is created), out of zone at t = 91.5 (exit debounced, session
closed with a 90-second stay). -/
def cexTrace : List Event :=
  [inZoneEvent 0, inZoneEvent (3/2), inZoneEvent 70, outZoneEvent (183/2)]

/-- A concrete ledger state with one open session, for instantiating the
selection lemmas. -/
def sampleActiveSession : AttendanceSession :=
  { id := 1, entry_time := 0, entry_camera := gate_camera, status := SessionStatus.active }

def sampleLedgerState : BrainState :=
  { initState with sessions := [sampleActiveSession], next_id := 2 }

/-! ## Storage-failure model for the entry path

`_record_entry` issues two separate `db.commit()` calls: one for the
session insert and (inside `_update_daily_summary`) one for the summary
row. A raising commit discards the mutations of its own transaction and
propagates the exception, so `_mark_counted`/`_set_cooldown` (which run
after `_record_entry` returns) are skipped; mutations committed earlier
and the Redis `INCR` are already durable and are not undone by anything
in the module or its caller (`event_processor.store_event` only logs the
exception). `FailPoint` injects a failure at one of the two commits; an
erroring run returns the state as persisted at the point the exception
is raised. -/

/-- Which durable write of the entry path raises, if any. -/
inductive FailPoint where
  | noFail
  | sessionCommit
  | summaryCommit
deriving Repr, DecidableEq

/-- `_update_daily_summary` with a failure injected at its
`db.commit()`: the summary-row transaction is discarded. -/
def update_daily_summaryF (fp : FailPoint) (s : BrainState) (isEntry : Bool) (now : ℚ) :
    Except BrainState BrainState :=
  if fp = FailPoint.summaryCommit then Except.error s
  else Except.ok (update_daily_summary s isEntry now)

/-- `_record_entry` with a failure injected at one of its durable
writes. A failing session commit discards the insert; a failing summary
commit leaves the already-committed insert and counter increment in
place. -/
def record_entryF (fp : FailPoint) (s : BrainState) (t : ℚ) (cam : String) :
    Except BrainState BrainState :=
  if fp = FailPoint.sessionCommit then Except.error s
  else
    let sess : AttendanceSession :=
      { id := s.next_id, entry_time := t, entry_camera := cam, status := SessionStatus.active }
    let s := { s with sessions := s.sessions ++ [sess], next_id := s.next_id + 1 }
    let s := (increment_onsite s).2
    update_daily_summaryF fp s true t

/-- `_handle_zone_entry` under the failure model: an exception raised
inside `_record_entry` propagates before `_mark_counted` and
`_set_cooldown` run. -/
def handle_zone_entryF (fp : FailPoint) (s : BrainState) (t : ℚ) (cam : String) :
    Except BrainState BrainState :=
  if is_in_cooldown s t then Except.ok s
  else
    let s := track_zone_presence s t
    let d := get_zone_duration s t
    if min_zone_duration ≤ d then
      if was_counted_entry s t then Except.ok s
      else
        match record_entryF fp s t cam with
        | Except.error e => Except.error e
        | Except.ok s' => Except.ok (set_cooldown (mark_counted_entry s' t) t)
    else Except.ok s

/-- The state persisted when the daily-summary commit of a debounced
entry at t = 1.5 (after a first in-zone event at t = 0) raises: the
session insert and the counter increment are already durable, no marker
is set. -/
def failedEntryState : BrainState :=
  { presence := some (0, 30), entry_marker := none, exit_marker := none,
    cooldown := none, onsite_raw := 1,
    sessions := [{ id := 1, entry_time := 3/2, entry_camera := gate_camera,
                   status := SessionStatus.active }],
    next_id := 2, summary := none }

/-! ## Counter-operation traces (`core/redis_client.py` accessors) -/

/-- One call to a mutating accessor of the onsite counter. -/
inductive CounterOp where
  | incr
  | decr
  | set (n : ℤ)
deriving Repr, DecidableEq

/-- Apply one counter accessor call to the state. -/
def applyCounterOp (s : BrainState) : CounterOp → BrainState
  | CounterOp.incr => (increment_onsite s).2
  | CounterOp.decr => (decrement_onsite s).2
  | CounterOp.set n => set_onsite_count s n

/-- Run a sequence of counter accessor calls. -/
def runCounterOps (s : BrainState) (ops : List CounterOp) : BrainState :=
  ops.foldl applyCounterOp s

end ClockoutVision

namespace ClockoutVision

/-! ### Projection helper lemmas -/

theorem update_daily_summary_sessions (s : BrainState) (a : Bool) (now : ℚ) :
    (update_daily_summary s a now).sessions = s.sessions := rfl

theorem update_daily_summary_onsite (s : BrainState) (a : Bool) (now : ℚ) :
    (update_daily_summary s a now).onsite_raw = s.onsite_raw := rfl

theorem update_daily_summary_entry_marker (s : BrainState) (a : Bool) (now : ℚ) :
    (update_daily_summary s a now).entry_marker = s.entry_marker := rfl

theorem decrement_onsite_2_summary (s : BrainState) :
    (decrement_onsite s).2.summary = s.summary := by
  simp only [decrement_onsite]; split <;> rfl

theorem decrement_onsite_2_sessions (s : BrainState) :
    (decrement_onsite s).2.sessions = s.sessions := by
  simp only [decrement_onsite]; split <;> rfl

theorem decrement_onsite_2_onsite (s : BrainState) :
    (decrement_onsite s).2.onsite_raw = max 0 (s.onsite_raw - 1) := by
  simp only [decrement_onsite]; split <;> simp <;> omega

theorem track_zone_presence_sessions (s : BrainState) (t : ℚ) :
    (track_zone_presence s t).sessions = s.sessions := by
  simp only [track_zone_presence]; split <;> rfl

theorem track_zone_presence_onsite (s : BrainState) (t : ℚ) :
    (track_zone_presence s t).onsite_raw = s.onsite_raw := by
  simp only [track_zone_presence]; split <;> rfl

theorem track_zone_presence_entry_marker (s : BrainState) (t : ℚ) :
    (track_zone_presence s t).entry_marker = s.entry_marker := by
  simp only [track_zone_presence]; split <;> rfl

theorem track_zone_presence_summary (s : BrainState) (t : ℚ) :
    (track_zone_presence s t).summary = s.summary := by
  simp only [track_zone_presence]; split <;> rfl

theorem update_daily_summary_total_exits (s : BrainState) (now : ℚ) :
    ((update_daily_summary s false now).summary.map DailySummary.total_exits) =
      some ((getOrCreateSummary s.summary).total_exits + 1) := by
  simp only [update_daily_summary]
  split
  · rename_i h
    simp at h
  · split <;> rfl

/-- Claim C2: the Onsite Counter is never negative. For every sequence
of increment/decrement/set operations from a nonnegative stored value,
`get()` stays `>= 0`; and when the pre-decrement value is 0, `decrement()`
returns 0 and the stored value remains 0. -/
theorem onsite_counter_nonneg :
    (∀ (s : BrainState) (ops : List CounterOp), 0 ≤ s.onsite_raw →
       0 ≤ get_onsite_count (runCounterOps s ops)) ∧
    (∀ s : BrainState, get_onsite_count s = 0 →
       (decrement_onsite s).1 = 0 ∧ get_onsite_count (decrement_onsite s).2 = 0) := by
  constructor
  · intro s ops
    induction ops generalizing s with
    | nil => intro h; exact h
    | cons op rest ih =>
      intro h
      have hstep : 0 ≤ (applyCounterOp s op).onsite_raw := by
        cases op with
        | incr => simp [applyCounterOp, increment_onsite]; omega
        | decr =>
          simp only [applyCounterOp, decrement_onsite]
          split <;> simp <;> omega
        | set n => simp [applyCounterOp, set_onsite_count]
      simpa [runCounterOps, List.foldl] using ih (applyCounterOp s op) hstep
  · intro s h
    simp only [get_onsite_count] at h
    simp [decrement_onsite, get_onsite_count, h]

theorem onsite_counter_nonneg_witness :
    0 ≤ get_onsite_count (runCounterOps initState
      [CounterOp.decr, CounterOp.decr, CounterOp.incr, CounterOp.decr, CounterOp.decr]) ∧
    (decrement_onsite initState).1 = 0 := by
  constructor
  · exact onsite_counter_nonneg.1 initState _ (by norm_num [initState])
  · exact (onsite_counter_nonneg.2 initState (by norm_num [initState, get_onsite_count])).1

/-- Claim C10: for a detection id with no presence record and no
cooldown marker, a single in-zone event only creates the presence record
with the event's timestamp (dwell computes to 0 < 1.0): no entry is
recorded and the counter is not incremented. -/
theorem first_event_only_creates_presence (s : BrainState) (t : ℚ) (cam : String)
    (hp : s.presence = none) (hc : s.cooldown = none) :
    handle_zone_entry s t cam = { s with presence := some (t, t + presence_ttl) } ∧
    (handle_zone_entry s t cam).sessions = s.sessions ∧
    (handle_zone_entry s t cam).onsite_raw = s.onsite_raw := by
  have h30 : t < t + presence_ttl := by norm_num [presence_ttl]
  have key : handle_zone_entry s t cam = { s with presence := some (t, t + presence_ttl) } := by
    norm_num [handle_zone_entry, is_in_cooldown, liveAt, hc, hp, track_zone_presence,
      get_zone_duration, min_zone_duration, h30]
  exact ⟨key, by rw [key], by rw [key]⟩

theorem first_event_only_creates_presence_witness :
    handle_zone_entry initState 5 gate_camera =
      { initState with presence := some (5, 5 + presence_ttl) } := by
  exact (first_event_only_creates_presence initState 5 gate_camera rfl rfl).1

/-- Claim C8: for a fresh detection id, the in-zone event at t = 0
creates only the presence record (no session, count 0), the dwell seen
at t = 1.5 is 1.5, and the in-zone event at t = 1.5 records exactly one
entry and moves the onsite count from 0 to 1. -/
theorem scenario_one_entry :
    (run_events initState [inZoneEvent 0]).sessions = [] ∧
    (run_events initState [inZoneEvent 0]).onsite_raw = 0 ∧
    get_zone_duration (run_events initState [inZoneEvent 0]) (3/2) = 3/2 ∧
    (run_events initState [inZoneEvent 0, inZoneEvent (3/2)]).sessions =
      [{ id := 1, entry_time := 3/2, entry_camera := gate_camera,
         status := SessionStatus.active }] ∧
    (run_events initState [inZoneEvent 0, inZoneEvent (3/2)]).onsite_raw = 1 := by
  norm_num [run_events, process_event, handle_zone_entry, is_in_cooldown, liveAt,
    track_zone_presence, get_zone_duration, was_counted_entry, mark_counted_entry,
    set_cooldown, record_entry, update_daily_summary, getOrCreateSummary, freshSummary,
    increment_onsite, get_onsite_count, initState, inZoneEvent, gate_zone, gate_camera,
    min_zone_duration, cooldown_seconds, marker_ttl, presence_ttl]

/-- Claim C5: an orphaned exit (no active session) creates or modifies
no session record, still decrements the Onsite Counter clamped at 0, and
still fires the Daily Aggregator's exit update, so `totalExits`
increments. -/
theorem orphaned_exit_effects (s : BrainState) (t : ℚ) (cam : String)
    (h : most_recent_active s.sessions = none) :
    (record_exit s t cam).sessions = s.sessions ∧
    (record_exit s t cam).onsite_raw = max 0 (s.onsite_raw - 1) ∧
    ((record_exit s t cam).summary.map DailySummary.total_exits) =
      some ((getOrCreateSummary s.summary).total_exits + 1) := by
  rw [record_exit, h]
  refine ⟨?_, ?_, ?_⟩
  · rw [update_daily_summary_sessions, decrement_onsite_2_sessions]
  · rw [update_daily_summary_onsite, decrement_onsite_2_onsite]
  · rw [update_daily_summary_total_exits, decrement_onsite_2_summary]

theorem orphaned_exit_effects_witness :
    (record_exit initState 5 gate_camera).sessions = [] ∧
    (record_exit initState 5 gate_camera).onsite_raw = 0 ∧
    ((record_exit initState 5 gate_camera).summary.map DailySummary.total_exits) = some 1 := by
  have h := orphaned_exit_effects initState 5 gate_camera
    (by norm_num [most_recent_active, argmaxEntry, initState])
  refine ⟨h.1, ?_, ?_⟩
  · have h2 := h.2.1
    simp only [initState] at h2 ⊢
    omega
  · have h3 := h.2.2
    simpa [initState, getOrCreateSummary, freshSummary] using h3

end ClockoutVision

namespace ClockoutVision

theorem process_event_inZone (s : BrainState) (t : ℚ) :
    process_event s (inZoneEvent t) = handle_zone_entry s t gate_camera := rfl

theorem process_event_outZone (s : BrainState) (t : ℚ) :
    process_event s (outZoneEvent t) = handle_zone_exit s t gate_camera := rfl

theorem run_in_zone_cons (s : BrainState) (t : ℚ) (ts : List ℚ) :
    run_in_zone s (t :: ts) = run_in_zone (handle_zone_entry s t gate_camera) ts := by
  simp only [run_in_zone, run_events, List.map, List.foldl, process_event_inZone]

theorem handle_first_in_zone (t0 : ℚ) :
    handle_zone_entry initState t0 gate_camera = stateA t0 := by
  have h30 : t0 < t0 + presence_ttl := by norm_num [presence_ttl]
  norm_num [handle_zone_entry, is_in_cooldown, liveAt, initState, track_zone_presence,
    get_zone_duration, min_zone_duration, h30, stateA]

theorem stepA_low (t0 t : ℚ) (h1 : t < t0 + min_zone_duration) (h2 : t < t0 + presence_ttl) :
    handle_zone_entry (stateA t0) t gate_camera = stateA t0 := by
  have hnd : ¬ ((1:ℚ) ≤ t - t0) := by rw [min_zone_duration] at h1; linarith
  norm_num [handle_zone_entry, is_in_cooldown, liveAt, stateA, initState,
    track_zone_presence, get_zone_duration, h2, hnd, min_zone_duration]

theorem stepA_trigger (t0 t : ℚ) (h1 : t0 + min_zone_duration ≤ t)
    (h2 : t < t0 + presence_ttl) :
    handle_zone_entry (stateA t0) t gate_camera = stateB t0 t := by
  have hd : (1:ℚ) ≤ t - t0 := by rw [min_zone_duration] at h1; linarith
  norm_num [handle_zone_entry, is_in_cooldown, liveAt, stateA, stateB, initState,
    track_zone_presence, get_zone_duration, was_counted_entry, record_entry,
    mark_counted_entry, set_cooldown, update_daily_summary, getOrCreateSummary,
    freshSummary, increment_onsite, get_onsite_count, h2, hd, min_zone_duration,
    marker_ttl, cooldown_seconds]

theorem stepB_frozen (t0 tstar t : ℚ) (h1 : t0 + min_zone_duration ≤ tstar)
    (h2 : t < t0 + presence_ttl) :
    handle_zone_entry (stateB t0 tstar) t gate_camera = stateB t0 tstar := by
  by_cases hcd : t < tstar + cooldown_seconds
  · simp [handle_zone_entry, is_in_cooldown, liveAt, stateB, hcd]
  · have hm : t < tstar + marker_ttl := by
      rw [min_zone_duration] at h1
      rw [presence_ttl] at h2
      rw [marker_ttl]
      rw [cooldown_seconds] at hcd
      linarith
    norm_num [handle_zone_entry, is_in_cooldown, liveAt, stateB, hcd, h2, hm,
      track_zone_presence, get_zone_duration, was_counted_entry]

theorem runB (t0 tstar : ℚ) (h1 : t0 + min_zone_duration ≤ tstar) :
    ∀ ts : List ℚ, (∀ t ∈ ts, t < t0 + presence_ttl) →
      run_in_zone (stateB t0 tstar) ts = stateB t0 tstar := by
  intro ts
  induction ts with
  | nil => intro _; rfl
  | cons t rest ih =>
    intro hb
    rw [run_in_zone_cons, stepB_frozen t0 tstar t h1 (hb t (by simp))]
    exact ih (fun x hx => hb x (by simp [hx]))

theorem runA (t0 : ℚ) :
    ∀ ts : List ℚ, (∀ t ∈ ts, t < t0 + presence_ttl) →
      (∃ t ∈ ts, t0 + min_zone_duration ≤ t) →
      ∃ tstar, t0 + min_zone_duration ≤ tstar ∧
        run_in_zone (stateA t0) ts = stateB t0 tstar := by
  intro ts
  induction ts with
  | nil =>
    rintro _ ⟨t, ht, _⟩
    simp at ht
  | cons t rest ih =>
    intro hb hex
    by_cases hq : t0 + min_zone_duration ≤ t
    · refine ⟨t, hq, ?_⟩
      rw [run_in_zone_cons, stepA_trigger t0 t hq (hb t (by simp))]
      exact runB t0 t hq rest (fun x hx => hb x (by simp [hx]))
    · have hlow : t < t0 + min_zone_duration := not_le.mp hq
      rw [run_in_zone_cons, stepA_low t0 t hlow (hb t (by simp))]
      refine ih (fun x hx => hb x (by simp [hx])) ?_
      obtain ⟨x, hx, hxq⟩ := hex
      rcases List.mem_cons.mp hx with h | h
      · exact absurd (h ▸ hxq) hq
      · exact ⟨x, h, hxq⟩

/-- Claim C1: for every sequence of in-zone detection events for one
detection id, the Debouncer records exactly one entry. Part 1
(idempotence): while the entry DebounceMarker is live, reprocessing an
identical event opens no session and does not touch the counter. Part 2:
from a fresh id, any in-zone sequence `t0 :: ts` whose later events stay
within the presence TTL and reach dwell `>= minZoneDurationSeconds`
yields exactly one session and exactly one counter increment. -/
theorem entry_recorded_exactly_once :
    (∀ (s : BrainState) (t : ℚ) (cam : String), was_counted_entry s t = true →
       (handle_zone_entry s t cam).sessions = s.sessions ∧
       (handle_zone_entry s t cam).onsite_raw = s.onsite_raw) ∧
    (∀ (t0 : ℚ) (ts : List ℚ),
       (∀ t ∈ ts, t < t0 + presence_ttl) →
       (∃ t ∈ ts, t0 + min_zone_duration ≤ t) →
       (run_in_zone initState (t0 :: ts)).sessions.length = 1 ∧
       (run_in_zone initState (t0 :: ts)).onsite_raw = 1) := by
  constructor
  · intro s t cam h
    by_cases hc : is_in_cooldown s t = true
    · simp [handle_zone_entry, hc]
    · have hc' : is_in_cooldown s t = false := by simpa using hc
      have hm : was_counted_entry (track_zone_presence s t) t = true := by
        unfold was_counted_entry at h ⊢
        rw [track_zone_presence_entry_marker]
        exact h
      simp only [handle_zone_entry, hc', hm]
      constructor <;> split <;>
        simp [track_zone_presence_sessions, track_zone_presence_onsite]
  · intro t0 ts hb hex
    rw [run_in_zone_cons, handle_first_in_zone]
    obtain ⟨tstar, _, heq⟩ := runA t0 ts hb hex
    rw [heq]
    exact ⟨rfl, rfl⟩

theorem entry_recorded_exactly_once_witness :
    (handle_zone_entry { initState with entry_marker := some 10 } 5 gate_camera).sessions =
      ({ initState with entry_marker := some 10 } : BrainState).sessions ∧
    (run_in_zone initState [0, 3/2, 3/2]).sessions.length = 1 ∧
    (run_in_zone initState [0, 3/2, 3/2]).onsite_raw = 1 := by
  have hb : ∀ t ∈ [(3:ℚ)/2, 3/2], t < 0 + presence_ttl := by
    intro t ht
    rcases List.mem_cons.mp ht with h | h
    · rw [h]; norm_num [presence_ttl]
    · simp at h; rw [h]; norm_num [presence_ttl]
  have hex : ∃ t ∈ [(3:ℚ)/2, 3/2], 0 + min_zone_duration ≤ t :=
    ⟨3/2, by simp, by norm_num [min_zone_duration]⟩
  refine ⟨?_, (entry_recorded_exactly_once.2 0 [3/2, 3/2] hb hex).1,
    (entry_recorded_exactly_once.2 0 [3/2, 3/2] hb hex).2⟩
  exact (entry_recorded_exactly_once.1 _ 5 gate_camera
    (by norm_num [was_counted_entry, liveAt])).1

end ClockoutVision

namespace ClockoutVision

theorem update_peak_char (s : BrainState) (a : Bool) (now : ℚ) :
    ((update_daily_summary s a now).summary.map DailySummary.current_onsite) =
      some (get_onsite_count s) ∧
    peakOf s.summary ≤ peakOf (update_daily_summary s a now).summary ∧
    (peakOf s.summary < get_onsite_count s →
       ((update_daily_summary s a now).summary.map DailySummary.peak_onsite) =
         some (some (get_onsite_count s)) ∧
       peakTimeOf (update_daily_summary s a now).summary = some now) ∧
    (get_onsite_count s ≤ peakOf s.summary →
       ((update_daily_summary s a now).summary.map DailySummary.peak_onsite) =
         some (some (peakOf s.summary)) ∧
       peakTimeOf (update_daily_summary s a now).summary = peakTimeOf s.summary) := by
  rcases hs : s.summary with _ | sm
  · by_cases hlt : (0:ℤ) < s.onsite_raw <;>
      cases a <;>
        simp [update_daily_summary, getOrCreateSummary, freshSummary, peakOf, peakTimeOf,
          get_onsite_count, hs, hlt] <;>
          omega
  · rcases hp : sm.peak_onsite with _ | p
    · by_cases hlt : (0:ℤ) < s.onsite_raw <;>
        cases a <;>
          simp [update_daily_summary, getOrCreateSummary, peakOf, peakTimeOf,
            get_onsite_count, hs, hp, hlt] <;>
            omega
    · by_cases hlt : p < s.onsite_raw <;>
        cases a <;>
          simp [update_daily_summary, getOrCreateSummary, peakOf, peakTimeOf,
            get_onsite_count, hs, hp, hlt] <;>
            omega

end ClockoutVision

namespace ClockoutVision

theorem update_peak_mono (s : BrainState) (a : Bool) (now : ℚ) :
    peakOf s.summary ≤ peakOf (update_daily_summary s a now).summary :=
  (update_peak_char s a now).2.1

theorem peak_mono_of_summary_eq (s s' : BrainState) (h : s'.summary = s.summary)
    (a : Bool) (now : ℚ) :
    peakOf s.summary ≤ peakOf (update_daily_summary s' a now).summary := by
  rw [← h]
  exact update_peak_mono s' a now

theorem record_entry_peak_mono (s : BrainState) (t : ℚ) (cam : String) :
    peakOf s.summary ≤ peakOf (record_entry s t cam).summary := by
  simp only [record_entry, increment_onsite]
  refine peak_mono_of_summary_eq s _ ?_ true t
  rfl

theorem record_exit_peak_mono (s : BrainState) (t : ℚ) (cam : String) :
    peakOf s.summary ≤ peakOf (record_exit s t cam).summary := by
  unfold record_exit
  split
  · exact peak_mono_of_summary_eq s _ (by rw [decrement_onsite_2_summary]) false t
  · exact peak_mono_of_summary_eq s _ (by rw [decrement_onsite_2_summary]) false t

theorem handle_entry_peak_mono (s : BrainState) (t : ℚ) (cam : String) :
    peakOf s.summary ≤ peakOf (handle_zone_entry s t cam).summary := by
  simp only [handle_zone_entry]
  split
  · exact le_refl _
  · split
    · split
      · rw [track_zone_presence_summary]
      · have h2 := record_entry_peak_mono (track_zone_presence s t) t cam
        rw [track_zone_presence_summary] at h2
        exact h2
    · rw [track_zone_presence_summary]

theorem handle_exit_peak_mono (s : BrainState) (t : ℚ) (cam : String) :
    peakOf s.summary ≤ peakOf (handle_zone_exit s t cam).summary := by
  simp only [handle_zone_exit, clear_zone_tracking]
  split
  · split
    · exact le_refl _
    · exact record_exit_peak_mono s t cam
  · exact le_refl _

theorem process_event_peak_mono (s : BrainState) (e : Event) :
    peakOf s.summary ≤ peakOf (process_event s e).summary := by
  unfold process_event
  split
  · exact le_refl _
  · split
    · exact le_refl _
    · split
      · exact handle_entry_peak_mono s e.timestamp e.camera_id
      · exact handle_exit_peak_mono s e.timestamp e.camera_id

theorem run_events_peak_mono (s : BrainState) (es : List Event) :
    peakOf s.summary ≤ peakOf ((run_events s es).summary) := by
  induction es generalizing s with
  | nil => exact le_refl _
  | cons e rest ih =>
    calc peakOf s.summary ≤ peakOf (process_event s e).summary :=
          process_event_peak_mono s e
      _ ≤ peakOf ((run_events (process_event s e) rest).summary) :=
          ih (process_event s e)

/-- Claim C6: `_update_daily_summary` resynchronizes `currentOnsite`
from the counter on every update, never decreases `peakOnsite`, and
writes `peakOnsite`/`peakTime` exactly when the fresh `currentOnsite`
strictly exceeds the previous peak; across any event sequence the peak
is monotone. -/
theorem peak_monotone_strict_update :
    (∀ (s : BrainState) (a : Bool) (now : ℚ),
       ((update_daily_summary s a now).summary.map DailySummary.current_onsite) =
         some (get_onsite_count s) ∧
       peakOf s.summary ≤ peakOf (update_daily_summary s a now).summary ∧
       (peakOf s.summary < get_onsite_count s →
          ((update_daily_summary s a now).summary.map DailySummary.peak_onsite) =
            some (some (get_onsite_count s)) ∧
          peakTimeOf (update_daily_summary s a now).summary = some now) ∧
       (get_onsite_count s ≤ peakOf s.summary →
          ((update_daily_summary s a now).summary.map DailySummary.peak_onsite) =
            some (some (peakOf s.summary)) ∧
          peakTimeOf (update_daily_summary s a now).summary = peakTimeOf s.summary)) ∧
    (∀ (s : BrainState) (es : List Event),
       peakOf s.summary ≤ peakOf ((run_events s es).summary)) :=
  ⟨update_peak_char, run_events_peak_mono⟩

theorem peak_monotone_strict_update_witness :
    peakOf (initState.summary) ≤ peakOf ((run_events initState cexTrace).summary) ∧
    ((update_daily_summary { initState with onsite_raw := 1 } true 2).summary.map
        DailySummary.peak_onsite) =
      some (some (get_onsite_count { initState with onsite_raw := 1 })) ∧
    peakTimeOf (update_daily_summary initState false 2).summary =
      peakTimeOf initState.summary := by
  refine ⟨peak_monotone_strict_update.2 initState cexTrace, ?_, ?_⟩
  · have h := (peak_monotone_strict_update.1 { initState with onsite_raw := 1 } true 2).2.2.1
    exact (h (by norm_num [peakOf, get_onsite_count, initState])).1
  · have h := (peak_monotone_strict_update.1 initState false 2).2.2.2
    exact (h (by norm_num [peakOf, get_onsite_count, initState])).2

end ClockoutVision

namespace ClockoutVision

theorem argmaxEntry_eq_none (l : List AttendanceSession) (h : argmaxEntry l = none) :
    l = [] := by
  cases l with
  | nil => rfl
  | cons x xs =>
    rcases hm : argmaxEntry xs with _ | c <;> simp only [argmaxEntry, hm] at h
    · cases h
    · split at h <;> cases h

theorem argmaxEntry_mem (l : List AttendanceSession) :
    ∀ b : AttendanceSession, argmaxEntry l = some b → b ∈ l := by
  induction l with
  | nil => intro b h; simp [argmaxEntry] at h
  | cons x xs ih =>
    intro b h
    rcases hm : argmaxEntry xs with _ | c <;> simp only [argmaxEntry, hm] at h
    · cases h
      exact List.mem_cons_self x xs
    · split at h <;> cases h
      · exact List.mem_cons_of_mem x (ih _ hm)
      · exact List.mem_cons_self x xs

theorem argmaxEntry_le (l : List AttendanceSession) :
    ∀ b : AttendanceSession, argmaxEntry l = some b →
      ∀ x ∈ l, x.entry_time ≤ b.entry_time := by
  induction l with
  | nil => intro b _ x hx; cases hx
  | cons y ys ih =>
    intro b h x hx
    rcases hm : argmaxEntry ys with _ | c <;> simp only [argmaxEntry, hm] at h
    · cases h
      have hys := argmaxEntry_eq_none ys hm
      subst hys
      rcases List.mem_cons.mp hx with h1 | h1
      · rw [h1]
      · cases h1
    · split at h <;> cases h
      · rename_i hlt
        rcases List.mem_cons.mp hx with h1 | h1
        · rw [h1]; exact le_of_lt hlt
        · exact ih _ hm x h1
      · rename_i hge
        rcases List.mem_cons.mp hx with h1 | h1
        · rw [h1]
        · exact le_trans (ih _ hm x h1) (not_lt.mp hge)

theorem most_recent_active_mem (l : List AttendanceSession) (b : AttendanceSession)
    (h : most_recent_active l = some b) :
    b ∈ l ∧ b.status = SessionStatus.active := by
  have hm := argmaxEntry_mem _ b h
  rw [List.mem_filter] at hm
  exact ⟨hm.1, by simpa using hm.2⟩

theorem most_recent_active_latest (l : List AttendanceSession) (b : AttendanceSession)
    (h : most_recent_active l = some b) :
    ∀ x ∈ l, x.status = SessionStatus.active → x.entry_time ≤ b.entry_time := by
  intro x hx hst
  exact argmaxEntry_le _ b h x (List.mem_filter.mpr ⟨hx, by simpa using hst⟩)

/-- Claim C4: when a debounced exit fires and an active session exists,
`_record_exit` selects the single most-recently-opened active session
(the one with the latest `entryTime`; ids assumed unique), closes exactly
it — exit time and camera from the event, status completed, duration
computed — and every other session is mapped to itself. -/
theorem exit_closes_most_recent (s : BrainState) (t : ℚ) (cam : String)
    (sess : AttendanceSession)
    (hs : most_recent_active s.sessions = some sess)
    (huniq : ∀ y ∈ s.sessions, y.id = sess.id → y = sess) :
    sess ∈ s.sessions ∧
    sess.status = SessionStatus.active ∧
    (∀ y ∈ s.sessions, y.status = SessionStatus.active → y.entry_time ≤ sess.entry_time) ∧
    close_session sess t cam =
      { sess with
        exit_time := some t,
        exit_camera := some cam,
        status := SessionStatus.completed,
        duration_minutes := some (pyTrunc ((t - sess.entry_time) / 60)) } ∧
    (record_exit s t cam).sessions =
      s.sessions.map (fun x => if x.id = sess.id then close_session sess t cam else x) := by
  obtain ⟨hmem, hact⟩ := most_recent_active_mem _ _ hs
  refine ⟨hmem, hact, most_recent_active_latest _ _ hs, rfl, ?_⟩
  rw [record_exit, hs, update_daily_summary_sessions, decrement_onsite_2_sessions]
  apply List.map_congr_left
  intro x hx
  by_cases hid : x.id = sess.id
  · rw [huniq x hx hid]
  · simp [hid]

theorem exit_closes_most_recent_witness :
    (record_exit sampleLedgerState 20 gate_camera).sessions =
      [{ sampleActiveSession with
         exit_time := some 20,
         exit_camera := some gate_camera,
         duration_minutes := some 0,
         status := SessionStatus.completed }] := by
  have hs : most_recent_active sampleLedgerState.sessions = some sampleActiveSession := by
    norm_num [most_recent_active, argmaxEntry, sampleLedgerState, sampleActiveSession,
      initState]
  have huniq : ∀ y ∈ sampleLedgerState.sessions,
      y.id = sampleActiveSession.id → y = sampleActiveSession := by
    intro y hy _
    simpa [sampleLedgerState, initState] using hy
  have h := exit_closes_most_recent sampleLedgerState 20 gate_camera _ hs huniq
  rw [h.2.2.2.2]
  norm_num [close_session, calculate_duration, pyTrunc, sampleLedgerState,
    sampleActiveSession, initState]

end ClockoutVision

namespace ClockoutVision

theorem mem_insertByEntryDesc (x y : AttendanceSession) (l : List AttendanceSession) :
    y ∈ insertByEntryDesc x l ↔ y = x ∨ y ∈ l := by
  induction l with
  | nil => simp [insertByEntryDesc]
  | cons z zs ih =>
    rw [insertByEntryDesc]
    split
    · rw [List.mem_cons, ih, List.mem_cons]
      tauto
    · simp only [List.mem_cons]

theorem mem_sortByEntryDesc (y : AttendanceSession) (l : List AttendanceSession) :
    y ∈ sortByEntryDesc l ↔ y ∈ l := by
  induction l with
  | nil => simp [sortByEntryDesc]
  | cons z zs ih =>
    show y ∈ insertByEntryDesc z (sortByEntryDesc zs) ↔ _
    rw [mem_insertByEntryDesc, ih, List.mem_cons]

theorem record_entry_sessions (s : BrainState) (t : ℚ) (cam : String) :
    (record_entry s t cam).sessions =
      s.sessions ++ [{ id := s.next_id, entry_time := t, entry_camera := cam,
                       status := SessionStatus.active }] := rfl

/-- Claim C3 (amended): a session closed by a debounced exit gets
`durationMinutes = int((exitTime - entryTime)/60)` (truncated, not
rounded), computed at close; the closed session is completed, no longer
appears in `get_active_sessions`, and completed sessions are not touched
by later entry or exit recording. -/
theorem close_truncates_and_removes (s : BrainState) (t : ℚ) (cam : String)
    (sess : AttendanceSession)
    (hs : most_recent_active s.sessions = some sess) :
    (close_session sess t cam).duration_minutes =
      some (pyTrunc ((t - sess.entry_time) / 60)) ∧
    close_session sess t cam ∈ (record_exit s t cam).sessions ∧
    (close_session sess t cam).status = SessionStatus.completed ∧
    close_session sess t cam ∉ get_active_sessions (record_exit s t cam) ∧
    (∀ x ∈ s.sessions, x.status = SessionStatus.completed →
       x ∈ (record_entry s t cam).sessions) ∧
    (∀ x ∈ s.sessions, x.status = SessionStatus.completed →
       (∀ y ∈ s.sessions, y.id = x.id → y = x) →
       x ∈ (record_exit s t cam).sessions) := by
  obtain ⟨hmem, hact⟩ := most_recent_active_mem _ _ hs
  have hsess : (record_exit s t cam).sessions =
      s.sessions.map (fun x => if x.id = sess.id then close_session x t cam else x) := by
    rw [record_exit, hs, update_daily_summary_sessions, decrement_onsite_2_sessions]
  have hclosed_mem : close_session sess t cam ∈ (record_exit s t cam).sessions := by
    rw [hsess]
    have := List.mem_map_of_mem
      (fun x => if x.id = sess.id then close_session x t cam else x) hmem
    simpa using this
  refine ⟨rfl, hclosed_mem, rfl, ?_, ?_, ?_⟩
  · intro hin
    rw [get_active_sessions, mem_sortByEntryDesc, List.mem_filter] at hin
    have : SessionStatus.completed = SessionStatus.active := by
      have h2 := hin.2
      simpa [close_session, calculate_duration] using h2
    cases this
  · intro x hx _
    rw [record_entry_sessions]
    exact List.mem_append_left _ hx
  · intro x hx hcomp hid
    rw [hsess]
    have hne : ¬ (x.id = sess.id) := by
      intro he
      have h2 := hid sess hmem he.symm
      rw [h2, hcomp] at hact
      cases hact
    have hfix : (fun z => if z.id = sess.id then close_session z t cam else z) x = x := by
      simp [hne]
    rw [← hfix]
    exact List.mem_map_of_mem _ hx

end ClockoutVision

namespace ClockoutVision

theorem track_zone_presence_cooldown (s : BrainState) (t : ℚ) :
    (track_zone_presence s t).cooldown = s.cooldown := by
  simp only [track_zone_presence]; split <;> rfl

theorem track_zone_presence_next_id (s : BrainState) (t : ℚ) :
    (track_zone_presence s t).next_id = s.next_id := by
  simp only [track_zone_presence]; split <;> rfl

/-- Claim C3 counterexample: on the four-event trace the closed session
spans 90 seconds (entry 1.5, exit 91.5) and is stored with
`durationMinutes = 1`, whereas the spec's `round((exit - entry)/60s)`
gives 2. -/
theorem duration_not_rounded_cex :
    ((run_events initState cexTrace).sessions.map
        (fun x => (x.entry_time, x.exit_time, x.duration_minutes))) =
      [(3/2, some (183/2), some 1)] ∧
    spec_duration_minutes (3/2) (183/2) = 2 ∧
    ((run_events initState cexTrace).sessions.map (fun x => x.duration_minutes)) ≠
      [some (spec_duration_minutes (3/2) (183/2))] := by
  have h1 : ((run_events initState cexTrace).sessions.map
      (fun x => (x.entry_time, x.exit_time, x.duration_minutes))) =
      [(3/2, some (183/2), some 1)] := by
    norm_num [cexTrace, run_events, process_event, handle_zone_entry, handle_zone_exit,
      is_in_cooldown, liveAt, track_zone_presence, get_zone_duration, clear_zone_tracking,
      was_counted_entry, was_counted_exit, mark_counted_entry, mark_counted_exit,
      set_cooldown, record_entry, record_exit, most_recent_active, argmaxEntry,
      close_session, calculate_duration, pyTrunc, update_daily_summary,
      getOrCreateSummary, freshSummary, increment_onsite, decrement_onsite,
      get_onsite_count, initState, inZoneEvent, outZoneEvent, gate_zone, gate_camera,
      min_zone_duration, cooldown_seconds, marker_ttl, presence_ttl]
  have h2 : spec_duration_minutes (3/2) (183/2) = 2 := by
    norm_num [spec_duration_minutes, round_eq]
  have h3 : ((run_events initState cexTrace).sessions.map (fun x => x.duration_minutes)) =
      [some 1] := by
    have := congrArg (List.map (fun p : ℚ × Option ℚ × Option ℤ => p.2.2)) h1
    simpa [Function.comp] using this
  refine ⟨h1, h2, ?_⟩
  rw [h2, h3]
  simp

theorem close_truncates_and_removes_witness :
    (close_session sampleActiveSession 20 gate_camera).duration_minutes = some 0 ∧
    close_session sampleActiveSession 20 gate_camera ∉
      get_active_sessions (record_exit sampleLedgerState 20 gate_camera) := by
  have hs : most_recent_active sampleLedgerState.sessions = some sampleActiveSession := by
    norm_num [most_recent_active, argmaxEntry, sampleLedgerState, sampleActiveSession,
      initState]
  have h := close_truncates_and_removes sampleLedgerState 20 gate_camera _ hs
  refine ⟨?_, h.2.2.2.1⟩
  rw [h.1]
  norm_num [sampleActiveSession, pyTrunc]

/-- Claim C7 (code bug): the day's `totalPersonMinutes` is never
accumulated. `_update_daily_summary` preserves `total_person_minutes`
unchanged in all cases, and on a trace that finalizes a session with
duration 1 minute the day's `total_person_minutes` is still 0, contrary
to the claim (and to the column's own documentation). -/
theorem person_minutes_never_updated :
    (∀ (s : BrainState) (a : Bool) (now : ℚ),
       ((update_daily_summary s a now).summary.map DailySummary.total_person_minutes) =
         some ((getOrCreateSummary s.summary).total_person_minutes)) ∧
    ((run_events initState cexTrace).sessions.map (fun x => x.duration_minutes)) =
      [some 1] ∧
    ((run_events initState cexTrace).summary.map DailySummary.total_person_minutes) =
      some 0 := by
  refine ⟨?_, ?_, ?_⟩
  · intro s a now
    simp only [update_daily_summary]
    split <;> split <;> rfl
  · norm_num [cexTrace, run_events, process_event, handle_zone_entry, handle_zone_exit,
      is_in_cooldown, liveAt, track_zone_presence, get_zone_duration, clear_zone_tracking,
      was_counted_entry, was_counted_exit, mark_counted_entry, mark_counted_exit,
      set_cooldown, record_entry, record_exit, most_recent_active, argmaxEntry,
      close_session, calculate_duration, pyTrunc, update_daily_summary,
      getOrCreateSummary, freshSummary, increment_onsite, decrement_onsite,
      get_onsite_count, initState, inZoneEvent, outZoneEvent, gate_zone, gate_camera,
      min_zone_duration, cooldown_seconds, marker_ttl, presence_ttl]
  · norm_num [cexTrace, run_events, process_event, handle_zone_entry, handle_zone_exit,
      is_in_cooldown, liveAt, track_zone_presence, get_zone_duration, clear_zone_tracking,
      was_counted_entry, was_counted_exit, mark_counted_entry, mark_counted_exit,
      set_cooldown, record_entry, record_exit, most_recent_active, argmaxEntry,
      close_session, calculate_duration, pyTrunc, update_daily_summary,
      getOrCreateSummary, freshSummary, increment_onsite, decrement_onsite,
      get_onsite_count, initState, inZoneEvent, outZoneEvent, gate_zone, gate_camera,
      min_zone_duration, cooldown_seconds, marker_ttl, presence_ttl]

/-- Claim C9 (amended): whenever a durable write of a debounced entry
fails, the entry DebounceMarker and the cooldown are not set and the
summary row is unchanged; a failing session-creation commit leaves no
durable mutation, but a failing daily-summary commit leaves the
already-committed session insert and counter increment in place (no
rollback). -/
theorem entry_failure_no_marker (fp : FailPoint) (s : BrainState) (t : ℚ) (cam : String)
    (e : BrainState) (h : handle_zone_entryF fp s t cam = Except.error e) :
    e.entry_marker = s.entry_marker ∧ e.cooldown = s.cooldown ∧ e.summary = s.summary ∧
    (fp = FailPoint.sessionCommit → e.sessions = s.sessions ∧ e.onsite_raw = s.onsite_raw) ∧
    (fp = FailPoint.summaryCommit →
       e.onsite_raw = s.onsite_raw + 1 ∧
       e.sessions = s.sessions ++ [{ id := s.next_id, entry_time := t, entry_camera := cam,
                                     status := SessionStatus.active }]) := by
  simp only [handle_zone_entryF] at h
  split at h
  · cases h
  · split at h
    · split at h
      · cases h
      · cases fp with
        | noFail => simp [record_entryF, update_daily_summaryF] at h
        | sessionCommit =>
          simp only [record_entryF, update_daily_summaryF, reduceCtorEq, reduceIte] at h
          rw [Except.error.injEq] at h
          subst h
          refine ⟨track_zone_presence_entry_marker s t, track_zone_presence_cooldown s t,
            track_zone_presence_summary s t,
            fun _ => ⟨track_zone_presence_sessions s t, track_zone_presence_onsite s t⟩,
            fun hc => ?_⟩
          cases hc
        | summaryCommit =>
          simp only [record_entryF, update_daily_summaryF, reduceCtorEq, reduceIte,
            increment_onsite] at h
          rw [Except.error.injEq] at h
          subst h
          refine ⟨track_zone_presence_entry_marker s t, track_zone_presence_cooldown s t,
            track_zone_presence_summary s t, fun hc => ?_, fun _ => ?_⟩
          · cases hc
          · constructor
            · simp [track_zone_presence_onsite]
            · simp [track_zone_presence_sessions, track_zone_presence_next_id]
    · cases h

/-- Claim C9 counterexample: with the daily-summary commit failing, the
debounced entry at t = 1.5 errors out in a state whose session table is
non-empty and whose counter is 1 — the attempted durable mutations are
not rolled back — while the entry marker is unset. -/
theorem entry_failure_not_rolled_back_cex :
    handle_zone_entryF FailPoint.summaryCommit (stateA 0) (3/2) gate_camera =
      Except.error failedEntryState ∧
    failedEntryState.sessions ≠ [] ∧
    failedEntryState.onsite_raw ≠ 0 ∧
    failedEntryState.entry_marker = none := by
  refine ⟨?_, by simp [failedEntryState], by simp [failedEntryState], rfl⟩
  norm_num [handle_zone_entryF, is_in_cooldown, liveAt, stateA, initState,
    track_zone_presence, get_zone_duration, was_counted_entry, record_entryF,
    update_daily_summaryF, increment_onsite, min_zone_duration, presence_ttl,
    failedEntryState]
  rfl

theorem entry_failure_no_marker_witness :
    failedEntryState.entry_marker = (stateA 0).entry_marker ∧
    failedEntryState.onsite_raw = (stateA 0).onsite_raw + 1 := by
  have h : handle_zone_entryF FailPoint.summaryCommit (stateA 0) (3/2) gate_camera =
      Except.error failedEntryState := by
    norm_num [handle_zone_entryF, is_in_cooldown, liveAt, stateA, initState,
      track_zone_presence, get_zone_duration, was_counted_entry, record_entryF,
      update_daily_summaryF, increment_onsite, min_zone_duration, presence_ttl,
      failedEntryState]
    rfl
  exact ⟨(entry_failure_no_marker _ _ _ _ _ h).1,
    ((entry_failure_no_marker _ _ _ _ _ h).2.2.2.2 rfl).1⟩

end ClockoutVision
